import Mathlib

/-!
Verification of the error module of the `audiopus` binding layer
(`src/error.rs`). The module translates the integer return-code
convention of the native Opus library into a structured error model:

* `ErrorCode` mirrors the documented negative status codes of the native
  library plus an `Unknown` sentinel (`#[repr(i32)]` enum);
* `Error` is the unified failure enumeration of the binding layer;
* `tryMapOpusError` classifies a raw native `i32` result into
  `Ok`/`Err`.

Rust `i32` values are embedded as `Int`: the module performs no arithmetic
on them (only equality and sign comparisons and decimal formatting), so no
wrap-around behaviour has to be modelled; theorems quantified over all
`Int` in particular cover every value representable as an `i32`. Rust
`usize` payloads are embedded as `Nat`. The Rust `Display` implementations
are embedded as total functions to `String` producing exactly the text the
`fmt` methods write.
-/

namespace Audiopus

/-- Modelled from the spec: the native status constants come from the
external `ffi` bindings crate, which is not among the sources of this
repository; the spec states that each `ErrorCode` variant carries "the
exact native negative integer as its discriminant" and that all real
native codes are negative. The values are the documented codes of the
Opus C API (`OPUS_BAD_ARG = -1` through `OPUS_ALLOC_FAIL = -7`). -/
def OPUS_BAD_ARG : Int := -1

/-- Modelled from the spec: see `OPUS_BAD_ARG`. -/
def OPUS_BUFFER_TOO_SMALL : Int := -2

/-- Modelled from the spec: see `OPUS_BAD_ARG`. -/
def OPUS_INTERNAL_ERROR : Int := -3

/-- Modelled from the spec: see `OPUS_BAD_ARG`. -/
def OPUS_INVALID_PACKET : Int := -4

/-- Modelled from the spec: see `OPUS_BAD_ARG`. -/
def OPUS_UNIMPLEMENTED : Int := -5

/-- Modelled from the spec: see `OPUS_BAD_ARG`. -/
def OPUS_INVALID_STATE : Int := -6

/-- Modelled from the spec: see `OPUS_BAD_ARG`. -/
def OPUS_ALLOC_FAIL : Int := -7

/-- Embeds the Rust `#[repr(i32)] enum ErrorCode` from `src/error.rs`:
one variant per documented native status code, plus the `Unknown`
sentinel whose discriminant is `0`. -/
inductive ErrorCode : Type
  | BadArgument
  | BufferTooSmall
  | InternalError
  | InvalidPacket
  | Unimplemented
  | InvalidState
  | AllocFail
  | Unknown
  deriving DecidableEq, Repr

/-- The `#[repr(i32)]` discriminant of each `ErrorCode` variant, as
assigned in the Rust enum declaration (`BadArgument = ffi::OPUS_BAD_ARG`,
…, `Unknown = 0`). -/
def ErrorCode.discriminant : ErrorCode → Int
  | .BadArgument => OPUS_BAD_ARG
  | .BufferTooSmall => OPUS_BUFFER_TOO_SMALL
  | .InternalError => OPUS_INTERNAL_ERROR
  | .InvalidPacket => OPUS_INVALID_PACKET
  | .Unimplemented => OPUS_UNIMPLEMENTED
  | .InvalidState => OPUS_INVALID_STATE
  | .AllocFail => OPUS_ALLOC_FAIL
  | .Unknown => 0

/-- Embeds `impl From<i32> for ErrorCode` from `src/error.rs`: a match on
the input against the seven documented native constants, with a catch-all
arm returning `Unknown`. -/
def ErrorCode.fromI32 (number : Int) : ErrorCode :=
  if number = OPUS_BAD_ARG then .BadArgument
  else if number = OPUS_BUFFER_TOO_SMALL then .BufferTooSmall
  else if number = OPUS_INTERNAL_ERROR then .InternalError
  else if number = OPUS_INVALID_PACKET then .InvalidPacket
  else if number = OPUS_UNIMPLEMENTED then .Unimplemented
  else if number = OPUS_INVALID_STATE then .InvalidState
  else if number = OPUS_ALLOC_FAIL then .AllocFail
  else .Unknown

/-- Embeds `impl Display for ErrorCode` from `src/error.rs`: the exact
static string the `fmt` method writes for each variant. -/
def ErrorCode.fmt : ErrorCode → String
  | .BadArgument => "Passed argument violated Opus\x27 specified requirements"
  | .BufferTooSmall => "Passed buffer was too small"
  | .InternalError => "Internal error inside Opus occured"
  | .InvalidPacket => "Opus received a packet violating requirements"
  | .Unimplemented => "Unimplemented code branch was attempted to be executed"
  | .InvalidState => "Opus-type instance is in an invalid state"
  | .AllocFail => "Opus was unable to allocate memory"
  | .Unknown => "Opus returned a non-negative error, this might be a Audiopus or Opus bug"

/-- Embeds the Rust `enum Error` from `src/error.rs`: the closed failure
enumeration of the binding layer. `i32` payloads become `Int`, the
`usize` payload of `MappingExpectedLen` becomes `Nat`. -/
inductive Error : Type
  | InvalidApplication
  | InvalidBandwidth (bandwidth : Int)
  | InvalidBitrate (rate : Int)
  | InvalidSignal (signal : Int)
  | InvalidComplexity (complexity : Int)
  | InvalidSampleRate (rate : Int)
  | InvalidChannels (channels : Int)
  | Opus (errorCode : ErrorCode)
  | EmptyPacket
  | SignalsTooLarge
  | PacketTooLarge
  | MappingExpectedLen (len : Nat)
  deriving DecidableEq, Repr

/-- Embeds `impl StdError for Error`, method `source`, from
`src/error.rs`: `Opus(err)` yields `Some(err)`, every other variant
yields `None`. The returned cause is the wrapped `ErrorCode` value. -/
def Error.source : Error → Option ErrorCode
  | .Opus err => some err
  | _ => none

/-- Embeds `impl Display for Error` from `src/error.rs`: the exact text
the `fmt` method writes for each variant; parameterized variants
interpolate their payload in decimal (`Int` and `Nat` `toString` agree
with how Rust formats `i32` and `usize` values in decimal), and
`Opus(error_code)` writes the `Display` output of the inner
`ErrorCode`. -/
def Error.fmt : Error → String
  | .InvalidApplication => "Invalid Application"
  | .InvalidBandwidth bandwidth => "Invalid Bandwitdh: " ++ toString bandwidth
  | .InvalidSignal signal => "Invalid Signal: " ++ toString signal
  | .InvalidComplexity complexity => "Invalid Complexity: " ++ toString complexity
  | .InvalidSampleRate rate => "Invalid Sample Rate: " ++ toString rate
  | .InvalidChannels channels => "Invalid Channels: " ++ toString channels
  | .Opus errorCode => errorCode.fmt
  | .EmptyPacket => "Passed packet contained no elements"
  | .SignalsTooLarge => "Signals\x27 length exceeded `i32::MAX`"
  | .PacketTooLarge => "Packet\x27s length exceeded `i32::MAX`"
  | .InvalidBitrate rate => "Invalid Bitrate: " ++ toString rate
  | .MappingExpectedLen len => "Wrong channel length, expected: " ++ toString len

/-- Embeds `impl From<ErrorCode> for Error` from `src/error.rs`. -/
def Error.fromErrorCode (errorCode : ErrorCode) : Error :=
  Error.Opus errorCode

/-- Embeds `pub fn try_map_opus_error` from `src/error.rs`: a negative
return value is classified as `Err(Error::from(ErrorCode::from(v)))`,
anything else is passed through as `Ok`. -/
def tryMapOpusError (ffiReturnValue : Int) : Except Error Int :=
  if ffiReturnValue < 0 then
    Except.error (Error.fromErrorCode (ErrorCode.fromI32 ffiReturnValue))
  else
    Except.ok ffiReturnValue

/-- The list of the seven documented native status codes. -/
def documentedCodes : List Int :=
  [OPUS_BAD_ARG, OPUS_BUFFER_TOO_SMALL, OPUS_INTERNAL_ERROR,
   OPUS_INVALID_PACKET, OPUS_UNIMPLEMENTED, OPUS_INVALID_STATE,
   OPUS_ALLOC_FAIL]

/-- Shared helper: any integer not among the documented codes is mapped
to `Unknown` by the catch-all arm. -/
theorem fromI32_eq_unknown_of_not_mem (v : Int) (h : v ∉ documentedCodes) :
    ErrorCode.fromI32 v = ErrorCode.Unknown := by
  simp only [documentedCodes, List.mem_cons, List.not_mem_nil, or_false,
    not_or] at h
  obtain ⟨h1, h2, h3, h4, h5, h6, h7⟩ := h
  simp [ErrorCode.fromI32, h1, h2, h3, h4, h5, h6, h7]

/-- C1: for every integer `v` with `v ≥ 0` (in particular every
non-negative `i32`), `tryMapOpusError v` returns `Ok v`, the input value
unchanged; `0` is passed through as `Ok 0` and is not treated as an error
or as the `Unknown` marker. -/
theorem tryMapOpusError_nonneg (v : Int) (h : 0 ≤ v) :
    tryMapOpusError v = Except.ok v := by
  unfold tryMapOpusError
  rw [if_neg (by omega)]

/-- Witness for C1 at the edge case `v = 0`. -/
theorem tryMapOpusError_nonneg_witness :
    (0 : Int) ≤ 0 ∧ tryMapOpusError 0 = Except.ok 0 :=
  ⟨le_refl 0, tryMapOpusError_nonneg 0 (le_refl 0)⟩

/-- C2: for every integer `v < 0`, `tryMapOpusError v` returns
`Err (Error.Opus (ErrorCode.fromI32 v))`, and `tryMapOpusError` returns
an error if and only if its argument is negative. -/
theorem tryMapOpusError_neg (v : Int) :
    (v < 0 →
      tryMapOpusError v = Except.error (Error.Opus (ErrorCode.fromI32 v))) ∧
    ((∃ e, tryMapOpusError v = Except.error e) ↔ v < 0) := by
  constructor
  · intro h
    unfold tryMapOpusError
    rw [if_pos h]
    rfl
  · constructor
    · rintro ⟨e, he⟩
      by_contra hn
      unfold tryMapOpusError at he
      rw [if_neg hn] at he
      exact Except.noConfusion he
    · intro h
      exact ⟨Error.Opus (ErrorCode.fromI32 v), by
        unfold tryMapOpusError
        rw [if_pos h]
        rfl⟩

/-- Witness for C2 at `v = -1`. -/
theorem tryMapOpusError_neg_witness :
    tryMapOpusError (-1) =
      Except.error (Error.Opus (ErrorCode.fromI32 (-1))) :=
  (tryMapOpusError_neg (-1)).1 (by decide)

/-- C3: for every `ErrorCode` variant `c` other than `Unknown`,
`ErrorCode.fromI32` applied to the discriminant of `c` (the documented
native status code) returns exactly `c`. -/
theorem fromI32_discriminant (c : ErrorCode) (h : c ≠ ErrorCode.Unknown) :
    ErrorCode.fromI32 c.discriminant = c := by
  cases c <;> first
    | exact absurd rfl h
    | decide

/-- Witness for C3 at `BadArgument`. -/
theorem fromI32_discriminant_witness :
    ErrorCode.BadArgument ≠ ErrorCode.Unknown ∧
    ErrorCode.fromI32 (ErrorCode.discriminant ErrorCode.BadArgument) =
      ErrorCode.BadArgument :=
  ⟨by decide, fromI32_discriminant ErrorCode.BadArgument (by decide)⟩

/-- C4: `ErrorCode.fromI32` is total; every integer not among the seven
documented native codes (including `0`, every positive value, and every
undocumented negative value) maps to `ErrorCode.Unknown`. -/
theorem fromI32_undocumented (v : Int) (h : v ∉ documentedCodes) :
    ErrorCode.fromI32 v = ErrorCode.Unknown :=
  fromI32_eq_unknown_of_not_mem v h

/-- Witness for C4 at the undocumented negative value `-9999`. -/
theorem fromI32_undocumented_witness :
    (-9999 : Int) ∉ documentedCodes ∧
    ErrorCode.fromI32 (-9999) = ErrorCode.Unknown :=
  ⟨by decide, fromI32_undocumented (-9999) (by decide)⟩

/-- C5: `(Error.Opus code).source` yields `some code` for every
`ErrorCode` value `code`, and every other `Error` variant yields
`none`. -/
theorem source_spec :
    (∀ code : ErrorCode, (Error.Opus code).source = some code) ∧
    Error.InvalidApplication.source = none ∧
    (∀ b : Int, (Error.InvalidBandwidth b).source = none) ∧
    (∀ r : Int, (Error.InvalidBitrate r).source = none) ∧
    (∀ s : Int, (Error.InvalidSignal s).source = none) ∧
    (∀ c : Int, (Error.InvalidComplexity c).source = none) ∧
    (∀ r : Int, (Error.InvalidSampleRate r).source = none) ∧
    (∀ c : Int, (Error.InvalidChannels c).source = none) ∧
    Error.EmptyPacket.source = none ∧
    Error.SignalsTooLarge.source = none ∧
    Error.PacketTooLarge.source = none ∧
    (∀ n : Nat, (Error.MappingExpectedLen n).source = none) :=
  ⟨fun _ => rfl, rfl, fun _ => rfl, fun _ => rfl, fun _ => rfl,
   fun _ => rfl, fun _ => rfl, fun _ => rfl, rfl, rfl, rfl, fun _ => rfl⟩

/-- C6: rendering is total; for every `Error` value and every `ErrorCode`
value (every variant, every payload, boundary values included) the
embedded `Display` implementation produces a nonempty string, and being a
total Lean function it never fails. -/
theorem fmt_total :
    (∀ e : Error, 0 < e.fmt.length) ∧ (∀ c : ErrorCode, 0 < c.fmt.length) := by
  have hc : ∀ c : ErrorCode, 0 < c.fmt.length := by
    intro c
    cases c <;> decide
  refine ⟨?_, hc⟩
  intro e
  cases e <;> first
    | decide
    | exact hc _
    | (simp only [Error.fmt, String.length_append]
       exact Nat.lt_of_lt_of_le (by decide) (Nat.le_add_right _ _))

/-- C7: for every parameterized `Error` variant, the rendered text
contains the decimal representation of the payload value as a contiguous
substring; in particular rendering `Error.InvalidComplexity 15` yields
text containing "15". -/
theorem fmt_contains_payload :
    (∀ b : Int, (toString b).data <:+: (Error.InvalidBandwidth b).fmt.data) ∧
    (∀ r : Int, (toString r).data <:+: (Error.InvalidBitrate r).fmt.data) ∧
    (∀ s : Int, (toString s).data <:+: (Error.InvalidSignal s).fmt.data) ∧
    (∀ c : Int, (toString c).data <:+: (Error.InvalidComplexity c).fmt.data) ∧
    (∀ r : Int, (toString r).data <:+: (Error.InvalidSampleRate r).fmt.data) ∧
    (∀ c : Int, (toString c).data <:+: (Error.InvalidChannels c).fmt.data) ∧
    (∀ n : Nat, (toString n).data <:+: (Error.MappingExpectedLen n).fmt.data) ∧
    "15".data <:+: (Error.InvalidComplexity 15).fmt.data := by
  refine ⟨?_, ?_, ?_, ?_, ?_, ?_, ?_, by decide⟩ <;>
    · intro x
      simp only [Error.fmt, String.data_append]
      exact (List.suffix_append _ _).isInfix

/-- C8: for every `ErrorCode` value `code`, the text rendered for
`Error.Opus code` is exactly the text rendered for `code` itself: the
`Error` rendering delegates to the `ErrorCode` rendering. -/
theorem opus_fmt_delegates :
    ∀ code : ErrorCode, (Error.Opus code).fmt = code.fmt :=
  fun _ => rfl

/-- C9: for every integer `b`, rendering `Error.InvalidBandwidth b`
produces exactly the string "Invalid Bandwitdh: " (with the misspelling
"Bandwitdh") followed by the decimal representation of `b`. -/
theorem invalidBandwidth_fmt :
    ∀ b : Int,
      (Error.InvalidBandwidth b).fmt = "Invalid Bandwitdh: " ++ toString b :=
  fun _ => rfl

/-- C10: for every undocumented negative integer `v`, rendering
`ErrorCode.fromI32 v` — and hence the error produced by
`tryMapOpusError v` — yields exactly the string "Opus returned a
non-negative error, this might be a Audiopus or Opus bug", a message
that describes the code as non-negative even though `v` is negative. -/
theorem undocumented_negative_fmt (v : Int) (h1 : v < 0)
    (h2 : v ∉ documentedCodes) :
    (ErrorCode.fromI32 v).fmt =
      "Opus returned a non-negative error, this might be a Audiopus or Opus bug" ∧
    ∀ e, tryMapOpusError v = Except.error e →
      e.fmt =
        "Opus returned a non-negative error, this might be a Audiopus or Opus bug" := by
  have hu := fromI32_eq_unknown_of_not_mem v h2
  refine ⟨by rw [hu]; rfl, ?_⟩
  intro e he
  unfold tryMapOpusError at he
  rw [if_pos h1] at he
  injection he with h3
  rw [← h3, Error.fromErrorCode, hu]
  rfl

/-- Witness for C10 at `v = -9999`. -/
theorem undocumented_negative_fmt_witness :
    (-9999 : Int) < 0 ∧ (-9999 : Int) ∉ documentedCodes ∧
    (ErrorCode.fromI32 (-9999)).fmt =
      "Opus returned a non-negative error, this might be a Audiopus or Opus bug" :=
  ⟨by decide, by decide,
    (undocumented_negative_fmt (-9999) (by decide) (by decide)).1⟩

end Audiopus
